import Mathlib

/-!
Verification development for the PNI RM3100 magnetometer driver
(src/pni_rm3100.py, class PniRm3100).

Modelling conventions:
- device register bytes and 16-bit words are Nat (with explicit masks and
  mod where overflow matters);
- Python floats are modelled as exact rationals (the scale computations of
  the source are exact divisions);
- the smbus transport is modelled by an explicit trace of bus operations
  that each operation would issue, and by explicit response arguments
  (the bytes a block read returns, the byte stream the status register
  read returns, the BIST register value);
- Python exceptions raised by the source (ZeroDivisionError in
  the scaling computation, NameError on the unbound local in read_meas_z)
  are modelled explicitly; on an exception the partially mutated object
  state is kept, as in Python;
- printing flags (print_debug_statements, print_status_statements) are at
  their default value False and printing is omitted.
-/

-- Register map constants, from the nested IntEnum classes of PniRm3100.

def I2C_ADDR_LL : Nat := 0x20

def CCR_REGISTER_ADDR : Nat := 0x04

def CCR_DEFAULT : Nat := 0x00C8

def CMM_REGISTER_ADDR : Nat := 0x01

def CMM_CMZ : Nat := 0x40

def CMM_CMY : Nat := 0x20

def CMM_CMX : Nat := 0x10

def CMM_DRDM : Nat := 0x04

def CMM_START : Nat := 0x01

def TMRC_REGISTER_ADDR : Nat := 0x0B

def TMRC_37HZ : Nat := 0x96

def POLL_REGISTER_ADDR : Nat := 0x00

def POLL_PMZ : Nat := 0x40

def POLL_PMY : Nat := 0x20

def POLL_PMX : Nat := 0x10

def STATUS_REGISTER_ADDR : Nat := 0x34

def STATUS_DRDY : Nat := 0x80

def MEAS_REGISTER_ADDR : Nat := 0x24

def BIST_REGISTER_ADDR : Nat := 0x33

def BIST_STE : Nat := 0x80

def BIST_BW1 : Nat := 0x08

def BIST_BW0 : Nat := 0x04

def BIST_TO_30us : Nat := BIST_BW0

def BIST_TO_60us : Nat := BIST_BW1

def BIST_TO_120us : Nat := BIST_BW1 + BIST_BW0

def BIST_BP1 : Nat := 0x02

def BIST_BP0 : Nat := 0x01

def BIST_LRP_1 : Nat := BIST_BP0

def BIST_LRP_2 : Nat := BIST_BP1

def BIST_LRP_4 : Nat := BIST_BP1 + BIST_BP0

def HSHAKE_REGISTER_ADDR : Nat := 0x35

def HSHAKE_DRC1 : Nat := 0x02

def HSHAKE_DRC0 : Nat := 0x01

/-- Source uint24_to_int24: mask the input to three bytes, then reinterpret
as a signed 24-bit two complement value. The Python expression
(signed & ~bit) - bit on a nonnegative int clears the bit and subtracts;
clearing a bit of m is m - (m &&& bit). The result can be negative, so the
model returns Int. -/
def uint24_to_int24 (unsigned_int24 : Nat) : Int :=
  let masked : Nat := unsigned_int24 &&& 0x00FFFFFF
  let three_byte_sign_bit : Nat := 0x00800000
  if masked &&& three_byte_sign_bit ≠ 0 then
    ((masked - (masked &&& three_byte_sign_bit) : Nat) : Int) - (three_byte_sign_bit : Int)
  else (masked : Int)

/-- Source endian_swap_int16: byte swap of a 16-bit quantity. -/
def endian_swap_int16 (input_int16 : Nat) : Nat :=
  ((input_int16 <<< 8) &&& 0xFF00) ||| ((input_int16 >>> 8) &&& 0x00FF)

/-- Python int.from_bytes(bs, big): big-endian byte list to Nat. -/
def int_from_bytes_be (bs : List Nat) : Nat :=
  bs.foldl (fun acc b => acc * 2 ^ 8 + b) 0

/-- Spec-side encoder for claim C8: encode an integer as a 3-byte
big-endian two complement quantity. -/
def encode_int24_be (v : Int) : List Nat :=
  let n : Nat := (v % (2 ^ 24 : Int)).toNat
  [n / 2 ^ 16 % 2 ^ 8, n / 2 ^ 8 % 2 ^ 8, n % 2 ^ 8]

lemma uint24_to_int24_eq (u : Nat) :
    uint24_to_int24 u =
      ((u % 16777216 : Nat) : Int) -
        (if 8388608 ≤ u % 16777216 then (16777216 : Int) else 0) := by
  have hmask : u &&& 0x00FFFFFF = u % 16777216 := by
    have h := Nat.and_pow_two_sub_one_eq_mod u 24
    norm_num at h
    exact h
  have hm : u % 16777216 < 16777216 := Nat.mod_lt _ (by norm_num)
  have hbit : u % 16777216 &&& 0x00800000 = ((u % 16777216).testBit 23).toNat * 8388608 := by
    have h := Nat.and_two_pow (u % 16777216) 23
    norm_num at h
    exact h
  have htb : (u % 16777216).testBit 23 = decide (u % 16777216 / 8388608 % 2 = 1) := by
    have h := @Nat.testBit_to_div_mod 23 (u % 16777216)
    norm_num at h
    exact h
  rcases Nat.lt_or_ge (u % 16777216) 8388608 with hlt | hge
  · have hbit0 : u % 16777216 &&& 0x00800000 = 0 := by
      rw [hbit, htb, Nat.div_eq_of_lt hlt]
      norm_num
    simp only [uint24_to_int24, hmask, hbit0]
    omega
  · have hdiv : u % 16777216 / 8388608 = 1 := by omega
    have hbit1 : u % 16777216 &&& 0x00800000 = 8388608 := by
      rw [hbit, htb, hdiv]
      norm_num
    simp only [uint24_to_int24, hmask, hbit1]
    omega

/-- Claim C8: uint24_to_int24 round-trips with 3-byte big-endian two
complement encoding on [-2 ^ 23, 2 ^ 23 - 1]; equivalently it masks to
24 bits, subtracts 2 ^ 24 when bit 23 is set, and its value always lies
in [-2 ^ 23, 2 ^ 23 - 1]. -/
theorem uint24_to_int24_round_trip (v : Int) (u : Nat)
    (h1 : -(2 ^ 23) ≤ v) (h2 : v ≤ 2 ^ 23 - 1) :
    uint24_to_int24 (int_from_bytes_be (encode_int24_be v)) = v ∧
    uint24_to_int24 u =
      (u % 2 ^ 24 : Int) - (if 2 ^ 23 ≤ u % 2 ^ 24 then (2 ^ 24 : Int) else 0) ∧
    -(2 ^ 23) ≤ uint24_to_int24 u ∧ uint24_to_int24 u ≤ 2 ^ 23 - 1 := by
  refine ⟨?_, ?_, ?_, ?_⟩
  · have hbytes :
        int_from_bytes_be (encode_int24_be v) = (v % (2 ^ 24 : Int)).toNat := by
      simp only [encode_int24_be, int_from_bytes_be, List.foldl]
      omega
    rw [hbytes, uint24_to_int24_eq]
    rcases Nat.lt_or_ge ((v % (2 ^ 24 : Int)).toNat % 16777216) 8388608 with hc | hc
    · rw [if_neg (by omega)]
      omega
    · rw [if_pos hc]
      omega
  · rw [uint24_to_int24_eq]
    rcases Nat.lt_or_ge (u % 16777216) 8388608 with hc | hc
    · rw [if_neg (by omega), if_neg (by omega : ¬ 2 ^ 23 ≤ u % 2 ^ 24)]
      omega
    · rw [if_pos hc, if_pos (by omega : 2 ^ 23 ≤ u % 2 ^ 24)]
      omega
  · rw [uint24_to_int24_eq]
    rcases Nat.lt_or_ge (u % 16777216) 8388608 with hc | hc
    · rw [if_neg (by omega)]
      omega
    · rw [if_pos hc]
      omega
  · rw [uint24_to_int24_eq]
    rcases Nat.lt_or_ge (u % 16777216) 8388608 with hc | hc
    · rw [if_neg (by omega)]
      omega
    · rw [if_pos hc]
      omega

theorem uint24_to_int24_round_trip_witness :
    (-(2 ^ 23) ≤ (-5 : Int) ∧ (-5 : Int) ≤ 2 ^ 23 - 1) ∧
    uint24_to_int24 (int_from_bytes_be (encode_int24_be (-5))) = -5 ∧
    uint24_to_int24 0xABCDEF =
      (0xABCDEF % 2 ^ 24 : Int) -
        (if 2 ^ 23 ≤ 0xABCDEF % 2 ^ 24 then (2 ^ 24 : Int) else 0) ∧
    -(2 ^ 23) ≤ uint24_to_int24 0xABCDEF ∧ uint24_to_int24 0xABCDEF ≤ 2 ^ 23 - 1 :=
  ⟨by norm_num, uint24_to_int24_round_trip (-5) 0xABCDEF (by norm_num) (by norm_num)⟩

lemma and_ff00_eq (a : Nat) : a &&& 0xFF00 = a / 256 % 256 * 256 := by
  apply Nat.eq_of_testBit_eq
  intro i
  have hrhs : a / 256 % 256 * 256 = 2 ^ 8 * (a / 256 % 256) := by
    norm_num [Nat.mul_comm]
  rw [Nat.testBit_and, hrhs, Nat.testBit_mul_pow_two]
  rcases Nat.lt_or_ge i 16 with h16 | h16
  · interval_cases i <;> simp [Nat.testBit_to_div_mod, decide_eq_decide] <;> omega
  · have h1 : Nat.testBit 0xFF00 i = false :=
      Nat.testBit_lt_two_pow (lt_of_lt_of_le (by norm_num : (0xFF00 : Nat) < 2 ^ 16)
        (Nat.pow_le_pow_right (by norm_num) h16))
    have h2 : (a / 256 % 256).testBit (i - 8) = false := by
      apply Nat.testBit_lt_two_pow
      exact lt_of_lt_of_le (Nat.mod_lt _ (by norm_num))
        (le_trans (by norm_num : (256 : Nat) ≤ 2 ^ 8)
          (Nat.pow_le_pow_right (by norm_num) (by omega)))
    simp only [h1, h2, Bool.and_false]

lemma or_mul_two_pow_eq_add (l s : Nat) (hs : s < 256) :
    l * 256 ||| s = l * 256 + s := by
  apply Nat.eq_of_testBit_eq
  intro i
  have hcomm : l * 256 = 2 ^ 8 * l := by
    norm_num [Nat.mul_comm]
  rw [Nat.testBit_or, hcomm, Nat.testBit_mul_pow_two,
    Nat.testBit_mul_pow_two_add l (by omega : s < 2 ^ 8)]
  rcases Nat.lt_or_ge i 8 with h | h
  · rw [if_pos h]
    simp [Nat.not_le.mpr h]
  · rw [if_neg (Nat.not_lt.mpr h)]
    have h2 : s.testBit i = false :=
      Nat.testBit_lt_two_pow (lt_of_lt_of_le hs
        (le_trans (by norm_num : (256 : Nat) ≤ 2 ^ 8)
          (Nat.pow_le_pow_right (by norm_num) h)))
    simp [h2, h]

lemma endian_swap_int16_eq (x : Nat) :
    endian_swap_int16 x = x % 256 * 256 + x / 256 % 256 := by
  have hff : (x >>> 8) &&& 0x00FF = x / 256 % 256 := by
    rw [Nat.shiftRight_eq_div_pow]
    have h := Nat.and_pow_two_sub_one_eq_mod (x / 2 ^ 8) 8
    norm_num at h ⊢
    exact h
  have hshift : x <<< 8 = x * 256 := by
    rw [Nat.shiftLeft_eq]
  have hff00 : (x <<< 8) &&& 0xFF00 = x % 256 * 256 := by
    rw [hshift, and_ff00_eq]
    omega
  rw [endian_swap_int16, hff, hff00,
    or_mul_two_pow_eq_add _ _ (Nat.mod_lt _ (by norm_num))]

/-- Claim C9: endian_swap_int16 is self-inverse on 16-bit values and
reverses the two bytes. -/
theorem endian_swap_int16_self_inverse (x : Nat) (hx : x ≤ 0xFFFF) :
    endian_swap_int16 (endian_swap_int16 x) = x ∧
    endian_swap_int16 x = x % 256 * 256 + x / 256 := by
  have h1 := endian_swap_int16_eq x
  have h2 := endian_swap_int16_eq (endian_swap_int16 x)
  have hd : endian_swap_int16 x % 256 = x / 256 := by omega
  have he : endian_swap_int16 x / 256 = x % 256 := by omega
  constructor
  · omega
  · omega

theorem endian_swap_int16_self_inverse_witness :
    0xBEEF ≤ 0xFFFF ∧
    endian_swap_int16 (endian_swap_int16 0xBEEF) = 0xBEEF ∧
    endian_swap_int16 0xBEEF = 0xBEEF % 256 * 256 + 0xBEEF / 256 :=
  ⟨by norm_num, endian_swap_int16_self_inverse 0xBEEF (by norm_num)⟩

/-- Python exceptions that the modelled source paths can raise. -/
inductive PyErr
  | zeroDivision
  | nameError
  deriving DecidableEq, Repr

/-- Bus operations issued through the smbus transport. -/
inductive BusOp
  | writeByte (addr reg val : Nat)
  | writeWord (addr reg val : Nat)
  | readByte (addr reg : Nat)
  | readBlock (addr reg len : Nat)
  deriving DecidableEq, Repr

/-- The mutable member variables of class PniRm3100 that the claims
concern. Python floats are modelled as exact rationals. -/
structure Driver where
  device_addr : Nat
  x_ccr : Nat
  y_ccr : Nat
  z_ccr : Nat
  x_scaling : ℚ
  y_scaling : ℚ
  z_scaling : ℚ
  cmx : Bool
  cmy : Bool
  cmz : Bool
  cmm_byte : Nat
  tmrc_byte : Nat
  hshake_byte : Nat
  bist_byte : Nat
  poll_byte : Nat
  deriving DecidableEq, Repr

/-- Source __cycle_count_to_scaling (the Python name-mangling prefix is
dropped): gain = (150.0/400.0) * cycle_count, scaling = 1.0 / gain.
In Python 1.0/0.0 raises ZeroDivisionError; rational division by zero is
total in Lean, so the call sites model that exception explicitly. -/
def cycle_count_to_scaling (cycle_count : Nat) : ℚ :=
  let gain : ℚ := (150 / 400) * cycle_count
  let scaling : ℚ := 1 / gain
  scaling

/-- Source default_config: the state set up by the constructor. -/
def default_config : Driver where
  device_addr := I2C_ADDR_LL
  x_ccr := CCR_DEFAULT
  y_ccr := CCR_DEFAULT
  z_ccr := CCR_DEFAULT
  x_scaling := 1 / 75
  y_scaling := 1 / 75
  z_scaling := 1 / 75
  cmx := true
  cmy := true
  cmz := true
  cmm_byte := CMM_CMX ||| CMM_CMY ||| CMM_CMZ ||| CMM_DRDM ||| CMM_START
  tmrc_byte := TMRC_37HZ
  hshake_byte := HSHAKE_DRC1 ||| HSHAKE_DRC0
  bist_byte := BIST_TO_120us ||| BIST_LRP_4
  poll_byte := 0x00

/-- Source assign_cmm_byte: resets cmm_byte to 0 and ORs in the bit for
each true flag; also stores the three axis flags. -/
def assign_cmm_byte (d : Driver) (cmx cmy cmz drdm cmm_start : Bool) : Driver :=
  let b0 : Nat := 0x00
  let b1 := if cmx then b0 ||| CMM_CMX else b0
  let b2 := if cmy then b1 ||| CMM_CMY else b1
  let b3 := if cmz then b2 ||| CMM_CMZ else b2
  let b4 := if drdm then b3 ||| CMM_DRDM else b3
  let b5 := if cmm_start then b4 ||| CMM_START else b4
  {d with cmx := cmx, cmy := cmy, cmz := cmz, cmm_byte := b5}

/-- Source assign_poll_byte: resets poll_byte to 0 and ORs in the bit for
each requested axis. -/
def assign_poll_byte (d : Driver) (poll_x poll_y poll_z : Bool) : Driver :=
  let p0 : Nat := 0x00
  let p1 := if poll_x then p0 ||| POLL_PMX else p0
  let p2 := if poll_y then p1 ||| POLL_PMY else p1
  let p3 := if poll_z then p2 ||| POLL_PMZ else p2
  {d with poll_byte := p3}

/-- Source assign_bist_timeout: for each of the three valid codes, clears
the two timeout bits (Python bist_byte &= ~(BIST_BW0 + BIST_BW1); on a
nonnegative int this is b - (b &&& mask)) and ORs in the code; any other
input leaves the state unchanged. -/
def assign_bist_timeout (d : Driver) (timeout : Nat) : Driver :=
  if timeout = BIST_TO_30us then
    {d with bist_byte := (d.bist_byte - (d.bist_byte &&& (BIST_BW0 + BIST_BW1))) ||| timeout}
  else if timeout = BIST_TO_60us then
    {d with bist_byte := (d.bist_byte - (d.bist_byte &&& (BIST_BW0 + BIST_BW1))) ||| timeout}
  else if timeout = BIST_TO_120us then
    {d with bist_byte := (d.bist_byte - (d.bist_byte &&& (BIST_BW0 + BIST_BW1))) ||| timeout}
  else d

/-- Source assign_xyz_ccr. Inputs are ints or None (Option Int).
Validation follows the source order: for each axis in x, y, z order, a
None input causes an early return with nothing changed (the source
prints an error and returns whenever an argument is None, including the
default None), and an out-of-range int causes an early return. In the
assignment phase all three inputs are ints; each ccr is stored and then
its scaling is computed; a zero ccr makes the scaling computation raise
ZeroDivisionError after the ccr field was already stored, which is
modelled by returning the partially mutated state with the error. -/
def assign_xyz_ccr (d : Driver) (x_ccr_in y_ccr_in z_ccr_in : Option Int) :
    Driver × Option PyErr :=
  match x_ccr_in with
  | none => (d, none)
  | some xv =>
    if xv < 0 ∨ 0xFFFF < xv then (d, none)
    else match y_ccr_in with
    | none => (d, none)
    | some yv =>
      if yv < 0 ∨ 0xFFFF < yv then (d, none)
      else match z_ccr_in with
      | none => (d, none)
      | some zv =>
        if zv < 0 ∨ 0xFFFF < zv then (d, none)
        else
          let d1 := {d with x_ccr := xv.toNat}
          if xv = 0 then (d1, some PyErr.zeroDivision) else
          let d2 := {d1 with x_scaling := cycle_count_to_scaling xv.toNat}
          let d3 := {d2 with y_ccr := yv.toNat}
          if yv = 0 then (d3, some PyErr.zeroDivision) else
          let d4 := {d3 with y_scaling := cycle_count_to_scaling yv.toNat}
          let d5 := {d4 with z_ccr := zv.toNat}
          if zv = 0 then (d5, some PyErr.zeroDivision) else
          ({d5 with z_scaling := cycle_count_to_scaling zv.toNat}, none)

/-- Source read_meas_x: gated on self.cmx or a pending PMX poll bit; on a
read, decodes the 3-byte block, scales, and clears the PMX bit if it was
the single-shot path. The block argument is the transport response; the
trace lists the bus operations issued. -/
def read_meas_x (d : Driver) (block : List Nat) :
    Option ℚ × Driver × List BusOp :=
  let single_meas_x := d.poll_byte &&& POLL_PMX
  if d.cmx ∨ single_meas_x ≠ 0 then
    let x_mag_unsigned := int_from_bytes_be block
    let x_mag_int := uint24_to_int24 x_mag_unsigned
    let x_mag_value : ℚ := (x_mag_int : ℚ) * d.x_scaling
    let d1 := if single_meas_x ≠ 0
      then {d with poll_byte := d.poll_byte - (d.poll_byte &&& POLL_PMX)}
      else d
    (some x_mag_value, d1, [BusOp.readBlock d.device_addr MEAS_REGISTER_ADDR 3])
  else (none, d, [])

/-- Source read_meas_z, modelled bug-for-bug: line 999 of the source tests
self.cmy or single_meas_y where single_meas_y is an unbound local
variable. When cmy is truthy the or short-circuits and the Z block read
proceeds (regardless of cmz); when cmy is falsy, evaluating single_meas_y
raises NameError before any bus transaction. -/
def read_meas_z (d : Driver) (block : List Nat) :
    Except PyErr (Option ℚ) × Driver × List BusOp :=
  let single_meas_z := d.poll_byte &&& POLL_PMZ
  if d.cmy then
    let z_mag_unsigned := int_from_bytes_be block
    let z_mag_int := uint24_to_int24 z_mag_unsigned
    let z_mag_value : ℚ := (z_mag_int : ℚ) * d.z_scaling
    let d1 := if single_meas_z ≠ 0
      then {d with poll_byte := d.poll_byte - (d.poll_byte &&& POLL_PMZ)}
      else d
    (Except.ok (some z_mag_value), d1,
      [BusOp.readBlock d.device_addr (MEAS_REGISTER_ADDR + 0x06) 3])
  else (Except.error PyErr.nameError, d, [])

/-- Claim C1: the claim says read_meas_z gates the Z read on cmz or a
pending Z single-shot flag, returning no value without bus traffic when
neither holds. The source instead gates on cmy (and an unbound local):
with cmy set, cmz clear and no pending Z flag it still issues the Z block
read and returns a scaled value, and with cmy clear, cmz set it raises
NameError instead of reading. Both divergences are exhibited at concrete
states built by assign_cmm_byte from the default configuration. -/
theorem read_meas_z_checks_cmy_not_cmz :
    (assign_cmm_byte default_config false true false false false).cmz = false ∧
    (assign_cmm_byte default_config false true false false false).poll_byte &&& POLL_PMZ = 0 ∧
    (read_meas_z (assign_cmm_byte default_config false true false false false) [0, 0, 5]).1 =
      Except.ok (some (1 / 15)) ∧
    (read_meas_z (assign_cmm_byte default_config false true false false false) [0, 0, 5]).2.2 =
      [BusOp.readBlock 0x20 0x2A 3] ∧
    (assign_cmm_byte default_config false false true false false).cmz = true ∧
    (read_meas_z (assign_cmm_byte default_config false false true false false) [0, 0, 5]).1 =
      Except.error PyErr.nameError ∧
    (read_meas_z (assign_cmm_byte default_config false false true false false) [0, 0, 5]).2.2 =
      [] := by
  refine ⟨rfl, by decide, ?_, rfl, rfl, rfl, rfl⟩
  show Except.ok (some (((5 : Int) : ℚ) * (1 / 75))) = Except.ok (some (1 / 15))
  norm_num

/-- Claim C3: the claim says that when all supplied values are valid, each
supplied axis is updated (unsupplied meaning None, left unchanged). In the
source, any None argument makes the whole call return early with an error
message, so a call supplying only a valid x value updates nothing: x_ccr
stays at its prior value 200 instead of becoming 100. -/
theorem assign_xyz_ccr_none_rejects_whole_call :
    (assign_xyz_ccr default_config (some 100) none none).1 = default_config ∧
    (assign_xyz_ccr default_config (some 100) none none).2 = none ∧
    default_config.x_ccr = 200 :=
  ⟨rfl, rfl, rfl⟩

/-- Claim C4: the claim says the scale/ccr invariant survives every
operation, including one that fails partway. In the source,
assign_xyz_ccr with a zero cycle count passes validation, stores
x_ccr = 0, and then raises ZeroDivisionError computing the scale, leaving
x_scaling at its stale prior value 1/75, which no longer matches the
recomputation from the stored x_ccr. -/
theorem assign_xyz_ccr_zero_leaves_scale_stale :
    (assign_xyz_ccr default_config (some 0) (some 200) (some 200)).2 =
      some PyErr.zeroDivision ∧
    (assign_xyz_ccr default_config (some 0) (some 200) (some 200)).1.x_ccr = 0 ∧
    (assign_xyz_ccr default_config (some 0) (some 200) (some 200)).1.x_scaling = 1 / 75 ∧
    (assign_xyz_ccr default_config (some 0) (some 200) (some 200)).1.x_scaling ≠
      cycle_count_to_scaling
        (assign_xyz_ccr default_config (some 0) (some 200) (some 200)).1.x_ccr := by
  refine ⟨rfl, rfl, rfl, ?_⟩
  show (1 : ℚ) / 75 ≠ cycle_count_to_scaling 0
  norm_num [cycle_count_to_scaling]

/-- Claim C5: after assign_poll_byte with poll_x true, a read_meas_x on a
state with cmx off issues the 3-byte block read at the X measurement
address and returns a value, consuming the pending flag; an immediately
following read_meas_x returns none and issues no bus operation. -/
theorem read_meas_x_single_shot_edge (d : Driver) (bs bs2 : List Nat)
    (h : d.cmx = false) :
    ((read_meas_x (assign_poll_byte d true false false) bs).1.isSome = true) ∧
    (read_meas_x (assign_poll_byte d true false false) bs).2.2 =
      [BusOp.readBlock d.device_addr MEAS_REGISTER_ADDR 3] ∧
    (read_meas_x (read_meas_x (assign_poll_byte d true false false) bs).2.1 bs2).1 =
      none ∧
    (read_meas_x (read_meas_x (assign_poll_byte d true false false) bs).2.1 bs2).2.2 =
      [] := by
  have e1 : ((0x00 : Nat) ||| 0x10) = 0x10 := rfl
  have e2 : ((0x10 : Nat) &&& 0x10) = 0x10 := rfl
  have e3 : ((0x10 : Nat) - 0x10) = 0 := rfl
  have e4 : ((0 : Nat) &&& 0x10) = 0 := rfl
  simp [read_meas_x, assign_poll_byte, POLL_PMX, h, e1, e2, e3, e4]

theorem read_meas_x_single_shot_edge_witness :
    ({default_config with cmx := false} : Driver).cmx = false ∧
    (((read_meas_x (assign_poll_byte {default_config with cmx := false} true false false)
        [0, 0, 1]).1.isSome = true) ∧
    (read_meas_x (assign_poll_byte {default_config with cmx := false} true false false)
        [0, 0, 1]).2.2 =
      [BusOp.readBlock ({default_config with cmx := false} : Driver).device_addr
        MEAS_REGISTER_ADDR 3] ∧
    (read_meas_x
        (read_meas_x (assign_poll_byte {default_config with cmx := false} true false false)
          [0, 0, 1]).2.1 [0, 0, 1]).1 = none ∧
    (read_meas_x
        (read_meas_x (assign_poll_byte {default_config with cmx := false} true false false)
          [0, 0, 1]).2.1 [0, 0, 1]).2.2 = []) :=
  ⟨rfl, read_meas_x_single_shot_edge {default_config with cmx := false} [0, 0, 1] [0, 0, 1] rfl⟩

set_option maxRecDepth 20000 in
lemma bist_timeout_bits_4 : ∀ b < 256,
    ((b - (b &&& 12)) ||| 4) &&& 12 = 4 ∧
    ((b - (b &&& 12)) ||| 4) &&& 2 = b &&& 2 ∧
    ((b - (b &&& 12)) ||| 4) &&& 1 = b &&& 1 ∧
    ((b - (b &&& 12)) ||| 4) &&& 128 = b &&& 128 := by decide

set_option maxRecDepth 20000 in
lemma bist_timeout_bits_8 : ∀ b < 256,
    ((b - (b &&& 12)) ||| 8) &&& 12 = 8 ∧
    ((b - (b &&& 12)) ||| 8) &&& 2 = b &&& 2 ∧
    ((b - (b &&& 12)) ||| 8) &&& 1 = b &&& 1 ∧
    ((b - (b &&& 12)) ||| 8) &&& 128 = b &&& 128 := by decide

set_option maxRecDepth 20000 in
lemma bist_timeout_bits_12 : ∀ b < 256,
    ((b - (b &&& 12)) ||| 12) &&& 12 = 12 ∧
    ((b - (b &&& 12)) ||| 12) &&& 2 = b &&& 2 ∧
    ((b - (b &&& 12)) ||| 12) &&& 1 = b &&& 1 ∧
    ((b - (b &&& 12)) ||| 12) &&& 128 = b &&& 128 := by decide

/-- Claim C7: for any BIST byte below 256, assign_bist_timeout with one of
the three valid codes sets exactly the two timeout bits to the code and
leaves the two LR-period bits and the self-test-enable bit unchanged; any
other input leaves the whole state unchanged. -/
theorem assign_bist_timeout_bit_isolation (d : Driver) (t : Nat)
    (hb : d.bist_byte < 256) :
    ((t = BIST_TO_30us ∨ t = BIST_TO_60us ∨ t = BIST_TO_120us) →
      ((assign_bist_timeout d t).bist_byte &&& (BIST_BW1 + BIST_BW0) = t ∧
       (assign_bist_timeout d t).bist_byte &&& BIST_BP1 = d.bist_byte &&& BIST_BP1 ∧
       (assign_bist_timeout d t).bist_byte &&& BIST_BP0 = d.bist_byte &&& BIST_BP0 ∧
       (assign_bist_timeout d t).bist_byte &&& BIST_STE = d.bist_byte &&& BIST_STE)) ∧
    (t ≠ BIST_TO_30us → t ≠ BIST_TO_60us → t ≠ BIST_TO_120us →
      assign_bist_timeout d t = d) := by
  constructor
  · intro ht
    rcases ht with h | h | h <;> subst h
    · exact bist_timeout_bits_4 d.bist_byte hb
    · exact bist_timeout_bits_8 d.bist_byte hb
    · exact bist_timeout_bits_12 d.bist_byte hb
  · intro h1 h2 h3
    simp [assign_bist_timeout, h1, h2, h3]

theorem assign_bist_timeout_bit_isolation_witness :
    default_config.bist_byte < 256 ∧
    (((BIST_TO_60us : Nat) = BIST_TO_30us ∨ (BIST_TO_60us : Nat) = BIST_TO_60us ∨
        (BIST_TO_60us : Nat) = BIST_TO_120us) →
      ((assign_bist_timeout default_config BIST_TO_60us).bist_byte &&&
          (BIST_BW1 + BIST_BW0) = BIST_TO_60us ∧
       (assign_bist_timeout default_config BIST_TO_60us).bist_byte &&& BIST_BP1 =
          default_config.bist_byte &&& BIST_BP1 ∧
       (assign_bist_timeout default_config BIST_TO_60us).bist_byte &&& BIST_BP0 =
          default_config.bist_byte &&& BIST_BP0 ∧
       (assign_bist_timeout default_config BIST_TO_60us).bist_byte &&& BIST_STE =
          default_config.bist_byte &&& BIST_STE)) ∧
    ((BIST_TO_60us : Nat) ≠ BIST_TO_30us → (BIST_TO_60us : Nat) ≠ BIST_TO_60us →
      (BIST_TO_60us : Nat) ≠ BIST_TO_120us →
      assign_bist_timeout default_config BIST_TO_60us = default_config) :=
  ⟨by decide, assign_bist_timeout_bit_isolation default_config BIST_TO_60us (by decide)⟩

/-- Source write_bist: one byte write of bist_byte to the BIST register.
The smbus force flag is transport-specific and not modelled. -/
def write_bist (d : Driver) : List BusOp :=
  [BusOp.writeByte d.device_addr BIST_REGISTER_ADDR d.bist_byte]

/-- Source write_poll. -/
def write_poll (d : Driver) : List BusOp :=
  [BusOp.writeByte d.device_addr POLL_REGISTER_ADDR d.poll_byte]

/-- Source write_ccr: three 16-bit word writes of the byte-swapped cycle
counts at the CCR base address and base + 2, base + 4. -/
def write_ccr (d : Driver) : List BusOp :=
  [BusOp.writeWord d.device_addr CCR_REGISTER_ADDR (endian_swap_int16 d.x_ccr),
   BusOp.writeWord d.device_addr (CCR_REGISTER_ADDR + 0x02) (endian_swap_int16 d.y_ccr),
   BusOp.writeWord d.device_addr (CCR_REGISTER_ADDR + 0x04) (endian_swap_int16 d.z_ccr)]

/-- Source write_tmrc. -/
def write_tmrc (d : Driver) : List BusOp :=
  [BusOp.writeByte d.device_addr TMRC_REGISTER_ADDR d.tmrc_byte]

/-- Source write_hshake. -/
def write_hshake (d : Driver) : List BusOp :=
  [BusOp.writeByte d.device_addr HSHAKE_REGISTER_ADDR d.hshake_byte]

/-- Source write_cmm. -/
def write_cmm (d : Driver) : List BusOp :=
  [BusOp.writeByte d.device_addr CMM_REGISTER_ADDR d.cmm_byte]

/-- Source write_config: bist, poll, ccr, tmrc, hshake, then cmm last. -/
def write_config (d : Driver) : List BusOp :=
  write_bist d ++ write_poll d ++ write_ccr d ++ write_tmrc d ++ write_hshake d ++
    write_cmm d

/-- Claim C6: write_config issues exactly the writes BIST, POLL, CCR-x,
CCR-y, CCR-z, TMRC, HSHAKE, CMM in that order, the cycle counts as byte
swapped 16-bit writes at 0x04, 0x06, 0x08. -/
theorem write_config_order (d : Driver) :
    write_config d =
      [BusOp.writeByte d.device_addr 0x33 d.bist_byte,
       BusOp.writeByte d.device_addr 0x00 d.poll_byte,
       BusOp.writeWord d.device_addr 0x04 (endian_swap_int16 d.x_ccr),
       BusOp.writeWord d.device_addr 0x06 (endian_swap_int16 d.y_ccr),
       BusOp.writeWord d.device_addr 0x08 (endian_swap_int16 d.z_ccr),
       BusOp.writeByte d.device_addr 0x0B d.tmrc_byte,
       BusOp.writeByte d.device_addr 0x35 d.hshake_byte,
       BusOp.writeByte d.device_addr 0x01 d.cmm_byte] := rfl

/-- The truthiness test the source applies to the k-th read_status call
inside self_test: bool(status_val & STATUS_DRDY), where status k is the
byte the transport returns for that read. -/
def status_ready (status : Nat → Nat) (k : Nat) : Bool :=
  status k &&& STATUS_DRDY != 0

/-- The DRDY polling loop of self_test:
while (not read_status()) and (i < attempt_num): i += 1.
Here i counts completed loop bodies, remaining = attempt_num - i, and the
index of each status read equals the value of i at that condition check.
Returns the final i and the number of status reads issued. -/
def pollLoopAux (ready : Nat → Bool) : Nat → Nat → Nat × Nat
  | remaining, i =>
    if ready i then (i, 1)
    else
      match remaining with
      | 0 => (i, 1)
      | r + 1 =>
        let t := pollLoopAux ready r (i + 1)
        (t.1, t.2 + 1)

/-- Source self_test: disables continuous mode through assign_cmm_byte with
all flags false and writes CMM, writes BIST, writes POLL, then polls the
status register until ready or i reaches attempt_num; on i = attempt_num
returns None, otherwise reads and returns the BIST register value. The
status argument gives the byte returned by the k-th status read and
bist_response the byte a BIST register read returns. -/
def self_test (d : Driver) (status : Nat → Nat) (bist_response : Nat)
    (attempt_num : Nat) : Option Nat × Driver × List BusOp :=
  let d1 := assign_cmm_byte d false false false false false
  let pre := write_cmm d1 ++ write_bist d1 ++ write_poll d1
  let loop := pollLoopAux (status_ready status) attempt_num 0
  let status_reads :=
    List.replicate loop.2 (BusOp.readByte d1.device_addr STATUS_REGISTER_ADDR)
  ((if loop.1 = attempt_num then none else some bist_response), d1,
    pre ++ status_reads ++
      (if loop.1 = attempt_num then []
       else [BusOp.readByte d1.device_addr BIST_REGISTER_ADDR]))

/-- Number of status register reads in a bus trace. -/
def status_read_count (ops : List BusOp) : Nat :=
  (ops.filter fun op =>
    match op with
    | BusOp.readByte _ reg => reg == STATUS_REGISTER_ADDR
    | _ => false).length

lemma pollLoopAux_never (ready : Nat → Bool) (hnever : ∀ k, ready k = false) :
    ∀ r i, pollLoopAux ready r i = (i + r, r + 1) := by
  intro r
  induction r with
  | zero =>
    intro i
    simp [pollLoopAux, hnever]
  | succ r ih =>
    intro i
    simp [pollLoopAux, hnever, ih (i + 1), Prod.ext_iff]
    omega

lemma pollLoopAux_first_ready (ready : Nat → Bool) :
    ∀ r i k, i ≤ k → k ≤ i + r → (∀ j, i ≤ j → j < k → ready j = false) →
      ready k = true → pollLoopAux ready r i = (k, k - i + 1) := by
  intro r
  induction r with
  | zero =>
    intro i k hik hk hbefore hready
    have hki : k = i := by omega
    subst hki
    simp [pollLoopAux, hready]
  | succ r ih =>
    intro i k hik hk hbefore hready
    by_cases hik2 : i = k
    · subst hik2
      simp [pollLoopAux, hready]
    · have hlt : i < k := by omega
      have hri : ready i = false := hbefore i (Nat.le_refl i) hlt
      have hrec := ih (i + 1) k (by omega) (by omega)
        (fun j hj1 hj2 => hbefore j (by omega) hj2) hready
      simp [pollLoopAux, hri, hrec, Prod.ext_iff]
      omega

/-- Claim C2 counterexample: with max_attempts = 1 and a transport whose
status register never has the ready bit set, self_test reads the status
register twice, not once; the while condition evaluates read_status one
more time than the number of loop bodies. -/
theorem self_test_status_read_count_counterexample :
    ¬ status_read_count (self_test default_config (fun _ => 0x00) 0x0F 1).2.2 = 1 := by
  decide

/-- Claim C2 (amended): for max_attempts at least 1, against a transport
whose status byte never has the ready bit set, self_test reads the status
register exactly max_attempts + 1 times, issues no further bus operation
afterwards (the trace is exactly the three configuration writes followed
by the status reads), and returns no result; conversely whenever the
ready bit is first observed within the first max_attempts status reads,
self_test returns the raw BIST register value. -/
theorem self_test_timeout_and_success (n k : Nat) (d : Driver)
    (bist_response : Nat) (status status2 : Nat → Nat) (hn : 1 ≤ n)
    (hnever : ∀ j, status j &&& STATUS_DRDY = 0)
    (hk : k < n) (hfirst : ∀ j, j < k → status2 j &&& STATUS_DRDY = 0)
    (hready : status2 k &&& STATUS_DRDY ≠ 0) :
    ((self_test d status bist_response n).1 = none ∧
     (self_test d status bist_response n).2.2 =
       write_cmm (assign_cmm_byte d false false false false false) ++
       write_bist (assign_cmm_byte d false false false false false) ++
       write_poll (assign_cmm_byte d false false false false false) ++
       List.replicate (n + 1)
         (BusOp.readByte d.device_addr STATUS_REGISTER_ADDR)) ∧
    (self_test d status2 bist_response n).1 = some bist_response := by
  have hloop := pollLoopAux_never (status_ready status)
    (fun j => by simp [status_ready, hnever j]) n 0
  have hloop2 := pollLoopAux_first_ready (status_ready status2) n 0 k
    (Nat.zero_le k) (by omega)
    (fun j hj1 hj2 => by simp [status_ready, hfirst j hj2])
    (by simp [status_ready]; exact hready)
  refine ⟨⟨?_, ?_⟩, ?_⟩
  · simp [self_test, hloop]
  · simp [self_test, hloop, List.append_assoc, assign_cmm_byte]
  · simp [self_test, hloop2, Nat.ne_of_lt hk]

theorem self_test_timeout_and_success_witness :
    (1 ≤ 2 ∧ (0 : Nat) < 2) ∧
    (((self_test default_config (fun _ => 0x00) 0x0F 2).1 = none ∧
      (self_test default_config (fun _ => 0x00) 0x0F 2).2.2 =
        write_cmm (assign_cmm_byte default_config false false false false false) ++
        write_bist (assign_cmm_byte default_config false false false false false) ++
        write_poll (assign_cmm_byte default_config false false false false false) ++
        List.replicate 3
          (BusOp.readByte default_config.device_addr STATUS_REGISTER_ADDR)) ∧
     (self_test default_config (fun _ => 0x80) 0x0F 2).1 = some 0x0F) :=
  ⟨⟨by norm_num, by norm_num⟩,
   self_test_timeout_and_success 2 0 default_config 0x0F (fun _ => 0x00)
     (fun _ => 0x80) (by norm_num) (fun j => Nat.zero_and _) (by norm_num)
     (fun j hj => absurd hj (Nat.not_lt_zero j)) (by decide)⟩

/-- Claim C10: every call to self_test, successful or not, leaves the
configuration with all three continuous-mode flags false and the packed
continuous-mode byte 0x00; nothing restores the previous continuous-mode
state. -/
theorem self_test_disables_continuous_mode (d : Driver) (status : Nat → Nat)
    (bist_response attempt_num : Nat) :
    (self_test d status bist_response attempt_num).2.1.cmx = false ∧
    (self_test d status bist_response attempt_num).2.1.cmy = false ∧
    (self_test d status bist_response attempt_num).2.1.cmz = false ∧
    (self_test d status bist_response attempt_num).2.1.cmm_byte = 0x00 :=
  ⟨rfl, rfl, rfl, rfl⟩
